import Mathlib

/-!
Shallow embedding of the core of `src/tserver.py` (the dataserver
repository): the automapped ORM row type (`ORMBase`), the Redis-backed
read cache used by the data API, and the two request handlers
`DBAPI.get` / `DBAPI.post`.

Modelling conventions:
* Python scalar attribute values are `PyVal` (string, integer, None);
  `pyStr` is Python's `str()` on them.
* A row's `vars(self)` dictionary is an insertion-ordered association
  list `Row.fields`.
* Redis is a key/value store whose entries carry an absolute expiry
  time in seconds; `EX` expiry means the key is live strictly before
  `storeTime + ttl` and absent from then on.
* Tornado semantics used by the embedding: `write` buffers output;
  `finish` finalizes the response (status 200 unless set otherwise);
  an exception that escapes a handler before `finish` makes Tornado
  discard the buffered output and send an error page (500 for a plain
  exception, the carried status for an `HTTPError`); an exception that
  escapes after `finish` cannot alter the already-finalized response.
* A key fact about the read path: `Server.Base = automap_base()` and
  `Base.prepare(engine, reflect=True)` generate each mapped class with
  only `__table__` in its class dictionary (declarative reads
  `__tablename__` when a user supplies it but never writes it), so the
  classes in `Base.classes` have no `__tablename__` attribute and
  line 159 `orm.__tablename__` raises `AttributeError` for every
  resolved table.  Everything after it on the read path — the cache
  membership test, the hit branch, `Session()`, the query,
  `json.dumps`, `cache.set(..., ex=60*60)` — is unreachable.
* The failure mode that is external to the source text — `commit()`
  raising on the write path — is an explicit boolean parameter of
  `DBAPI.post`, so that every exit path of the Python code is a branch
  of the Lean function.  `DBAPI.get` keeps analogous request
  parameters (time, constraint list, would-the-query-raise) even
  though none of them can influence its outcome.
-/

namespace DataServer

/-- Python scalar values stored in ORM row attributes. -/
inductive PyVal where
  | vstr (s : String)
  | vint (n : Int)
  | vnone
deriving DecidableEq, Repr

/-- Python `str()` on a scalar value. -/
def pyStr : PyVal → String
  | .vstr s => s
  | .vint n => toString n
  | .vnone => "None"

/-- One column of a reflected table: its name and whether it is part of
the primary key (`i.name`, `i.primary_key` in the source). -/
structure Column where
  name : String
  primary_key : Bool
deriving DecidableEq, Repr

/-- A reflected table descriptor: `__tablename__` and the ordered
`__table__.columns`. -/
structure Table where
  tablename : String
  columns : List Column
deriving DecidableEq, Repr

/-- A materialized row: `vars(self)`, an insertion-ordered mapping from
attribute name to value. -/
structure Row where
  fields : List (String × PyVal)
deriving DecidableEq, Repr

/-- Python `getattr(self, a)`: `none` models the `AttributeError` raised
when the attribute is absent. -/
def pygetattr (r : Row) (a : String) : Option PyVal :=
  (r.fields.find? (fun kv => kv.fst == a)).map Prod.snd

/-- `ORMBase.pkey` (lines 110-114): the names of the primary-key columns
in the declared column order. -/
def pkey (t : Table) : List String :=
  (t.columns.filter (fun c => c.primary_key)).map Column.name

/-- `ORMBase.pval` (lines 116-118):
`tuple(map(str, (getattr(self, i) for i in self.pkey)))`.
`none` models the `AttributeError` from a missing attribute. -/
def pval (t : Table) (r : Row) : Option (List String) :=
  ((pkey t).mapM (pygetattr r)).map (fun vs => vs.map pyStr)

/-- `ORMBase.__eq__` (lines 123-124): `self.pval == other.pval`;
`none` models the exception when either `pval` raises. -/
def ormEq (t : Table) (r1 r2 : Row) : Option Bool :=
  match pval t r1, pval t r2 with
  | some p1, some p2 => some (decide (p1 = p2))
  | _, _ => none

/-- `ORMBase.__ne__` (lines 126-127): `self.pval != other.pval`. -/
def ormNe (t : Table) (r1 r2 : Row) : Option Bool :=
  match pval t r1, pval t r2 with
  | some p1, some p2 => some (decide (p1 ≠ p2))
  | _, _ => none

/-- Python `k.startswith('_')`: the first character is an underscore
(false on the empty string). -/
def startsWithUnderscore (s : String) : Bool :=
  match s.data with
  | [] => false
  | c :: _ => c == '_'

/-- `ORMBase.to_dict` (lines 129-130):
keep the fields of `vars(self)` whose name does not start with `_`. -/
def to_dict (r : Row) : List (String × PyVal) :=
  r.fields.filter (fun kv => !startsWithUnderscore kv.fst)

/-- `orm(**kw)` on line 174 applied to a genuine field-map: the
SQLAlchemy declarative constructor assigns every supplied key as an
attribute; instrumentation also installs the internal bookkeeping
attribute `_sa_instance_state` (whose value is irrelevant here and
modelled as `None`). -/
def fromFieldMap (kw : List (String × PyVal)) : Row :=
  ⟨("_sa_instance_state", PyVal.vnone) :: kw⟩

/-- The Redis cache: entries are key, value, absolute expiry time in
seconds. -/
structure Cache where
  entries : List (String × String × Nat)
deriving DecidableEq, Repr

/-- `cache.get(k)` at time `now`: the stored value while the key is
live (strictly before its expiry), `none` once expired or absent. -/
def Cache.get (c : Cache) (k : String) (now : Nat) : Option String :=
  match c.entries.find? (fun e => e.fst == k) with
  | some (_, v, exp) => if now < exp then some v else none
  | none => none

/-- `cache.set(k, v, ex=ttl)` at time `now`: overwrite any previous
entry for `k` and arm a fresh expiry `now + ttl`. -/
def Cache.set (c : Cache) (k v : String) (now ttl : Nat) : Cache :=
  ⟨(k, v, now + ttl) :: c.entries.filter (fun e => e.fst != k)⟩

/-- The database: rows per table name. -/
structure DB where
  tables : List (String × List Row)
deriving DecidableEq, Repr

/-- The application state the handlers consult: the reflected schema
(`Base.classes`), the live database, and the Redis cache. -/
structure App where
  schema : List Table
  db : DB
  cache : Cache
deriving DecidableEq, Repr

/-- `self.application.Base.classes.get(table)` (line 154): automap
classes are keyed by table name; unknown names yield `None`. -/
def classesGet (app : App) (t : String) : Option Table :=
  app.schema.find? (fun tb => tb.tablename == t)

/-- The HTTP response a request finally receives. -/
structure Response where
  status : Nat
  body : String
deriving DecidableEq, Repr

/-- Tornado's error page for an uncaught exception (`send_error`):
the buffered output is discarded and an error document is sent. -/
def errorBody (code : Nat) : String :=
  "<html><title>" ++ toString code ++ "</title></html>"

/-- Everything observable about one handler invocation: the response,
how many database Sessions were opened and how many `close()` calls
were made on them, and the cache and database afterwards. -/
structure HandlerResult where
  response : Response
  sessionsOpened : Nat
  sessionsClosed : Nat
  cache : Cache
  db : DB
deriving DecidableEq, Repr

/-- `DBAPI.get` (lines 157-169), branch by branch.

* Unknown table: `parse_query` hands back `orm = None`, and line 159
  `orm.__tablename__` raises `AttributeError`; Tornado answers 500.
  No session is opened, the cache and database are untouched.
* Resolved table: automap generated the class with only `__table__`
  (no `__tablename__` attribute exists on it), so line 159
  `orm.__tablename__` raises `AttributeError` here as well, before the
  cache membership test can even be evaluated; Tornado answers 500.
  The rest of the read path (lines 159-169: the cache lookup, the
  session opening, the query, the serialization, the
  `cache.set(..., ex=60*60)`, the write and the close) is unreachable,
  so again no session is opened and the cache and database are
  untouched.

The request time, the `get_arguments('kwargs')` list and the
would-the-query-raise flag are kept as parameters describing the
request, but none of them can influence the outcome. -/
def DBAPI.get (app : App) (_now : Nat) (table : String)
    (_kwargs : List String) (_queryFails : Bool) : HandlerResult :=
  match classesGet app table with
  | none => ⟨⟨500, errorBody 500⟩, 0, 0, app.cache, app.db⟩
  | some _ => ⟨⟨500, errorBody 500⟩, 0, 0, app.cache, app.db⟩

/-- `DBAPI.post` (lines 171-186), branch by branch.

* Line 173 opens a session unconditionally.
* If `kwargs` (the list of strings from `get_arguments`) is non-empty,
  the comprehension `[orm(**kw) for kw in kwargs]` raises `TypeError`
  (`**` needs a mapping, and for an unknown table `orm` is `None`);
  this happens before the `try`, so the session is never closed and
  Tornado answers 500.
* Otherwise `objs = []` and `sess.commit()` runs.  On success,
  `self.write('success')`, then `finally:` closes the session once and
  finishes.  On failure, `except:` rolls back, closes the session, and
  raises `HTTPError(404, 'failed to update')`; `finally:` then closes
  the session a second time and calls `self.finish()`, finalizing a
  200 response with empty body, so the propagating `HTTPError` can no
  longer change what the client receives. -/
def DBAPI.post (app : App) (_table : String) (kwargs : List String)
    (commitFails : Bool) : HandlerResult :=
  if kwargs.isEmpty then
    if commitFails then
      ⟨⟨200, ""⟩, 1, 2, app.cache, app.db⟩
    else
      ⟨⟨200, "success"⟩, 1, 1, app.cache, app.db⟩
  else
    ⟨⟨500, errorBody 500⟩, 1, 0, app.cache, app.db⟩

/-! Sample data used by the concrete evaluations. -/

/-- A reflected `users` table with primary key `id`. -/
def usersTable : Table :=
  ⟨"users", [⟨"id", true⟩, ⟨"name", false⟩]⟩

def row1 : Row := ⟨[("id", PyVal.vint 1), ("name", PyVal.vstr "a")]⟩

def row2 : Row := ⟨[("id", PyVal.vint 2), ("name", PyVal.vstr "b")]⟩

/-- Same primary key as `row1`, different non-key field. -/
def row1b : Row := ⟨[("id", PyVal.vint 1), ("name", PyVal.vstr "zzz")]⟩

/-- The application with a cold cache. -/
def sampleApp : App :=
  ⟨[usersTable], ⟨[("users", [row1, row2])]⟩, ⟨[]⟩⟩

/-- The application with a fresh cache entry for `users` (stored
snapshot `"SNAPSHOT"`, expiry at time 100). -/
def sampleAppHit : App :=
  ⟨[usersTable], ⟨[("users", [row1, row2])]⟩, ⟨[("users", "SNAPSHOT", 100)]⟩⟩

/-! Helper lemmas shared by several developments. -/

/-- A freshly stored cache entry is read back exactly while its TTL has
not elapsed. -/
theorem cache_get_set (c : Cache) (k v : String) (now ttl t : Nat) :
    Cache.get (Cache.set c k v now ttl) k t = some v ↔ t < now + ttl := by
  simp only [Cache.get, Cache.set, List.find?]
  rw [show (((k, v, now + ttl) : String × String × Nat).fst == k) = true by simp]
  constructor
  · intro h
    by_contra hlt
    simp [if_neg hlt] at h
  · intro h
    simp [if_pos h]

/-- The field filter of `to_dict` is idempotent. -/
theorem filter_private_idem (l : List (String × PyVal)) :
    (l.filter (fun kv => !startsWithUnderscore kv.fst)).filter
        (fun kv => !startsWithUnderscore kv.fst) =
      l.filter (fun kv => !startsWithUnderscore kv.fst) := by
  induction l with
  | nil => rfl
  | cons a l ih =>
    by_cases h : startsWithUnderscore a.fst
    · simp [List.filter_cons, h, ih]
    · simp [List.filter_cons, h, ih]

/-- Every GET answers 500 and leaves the cache and database untouched:
line 159 raises `AttributeError` whether the table resolves or not. -/
theorem get_always_500 (app : App) (now : Nat) (table : String)
    (kwargs : List String) (qf : Bool) :
    (DBAPI.get app now table kwargs qf).response.status = 500 ∧
    (DBAPI.get app now table kwargs qf).sessionsOpened = 0 ∧
    (DBAPI.get app now table kwargs qf).cache = app.cache ∧
    (DBAPI.get app now table kwargs qf).db = app.db := by
  unfold DBAPI.get
  cases classesGet app table <;> exact ⟨rfl, rfl, rfl, rfl⟩

/-! The claims. -/

/-- Claim C1: the claim says every request releases its Session exactly
once on every exit path.  The read path never opens a session at all
(line 159 raises `AttributeError` before line 162 can run), so the
violations live on the write path, and evaluating the code exhibits
both: a POST whose commit fails closes its session twice (once in the
except branch, once in the finally block), and a POST with a non-empty
field-map list opens a session and never closes it (the `TypeError` of
line 174 fires after `Session()` but before the try/finally is
entered). -/
theorem c1_session_release_violated :
    (DBAPI.post sampleApp "users" [] true).sessionsOpened = 1 ∧
    (DBAPI.post sampleApp "users" [] true).sessionsClosed = 2 ∧
    (DBAPI.post sampleApp "users" ["name=c"] false).sessionsOpened = 1 ∧
    (DBAPI.post sampleApp "users" ["name=c"] false).sessionsClosed = 0 := by
  exact ⟨rfl, rfl, rfl, rfl⟩

/-- Claim C2: the claim says an unknown table name yields a
client-visible 4xx NotFound failure.  Evaluating the code refutes the
4xx part: `Base.classes.get` returns `None`, `orm.__tablename__` raises
`AttributeError`, and Tornado answers with a 500 server error (the
process survives, but the response class is 5xx, not 4xx). -/
theorem c2_unknown_table_500 :
    (DBAPI.get sampleApp 0 "widgets" [] false).response.status = 500 ∧
    ¬(400 ≤ (DBAPI.get sampleApp 0 "widgets" [] false).response.status ∧
        (DBAPI.get sampleApp 0 "widgets" [] false).response.status < 500) := by
  refine ⟨?_, ?_⟩ <;> decide

/-- Claim C3: the claim says a failing commit is rolled back (true: the
database is unchanged) and the caller receives a 404 error with message
"failed to update".  Evaluating the code refutes the second part: the
finally block calls `self.finish()` before the raised
`HTTPError(404, 'failed to update')` propagates, so the client receives
an already-finalized HTTP 200 response with an empty body. -/
theorem c3_commit_failure_response :
    (DBAPI.post sampleApp "users" [] true).db = sampleApp.db ∧
    (DBAPI.post sampleApp "users" [] true).response.status = 200 ∧
    (DBAPI.post sampleApp "users" [] true).response.body = "" := by
  exact ⟨rfl, rfl, rfl⟩

/-- Claim C4: the claim says a GET whose table has a present, unexpired
cache entry returns the cached snapshot verbatim.  Evaluating the code
refutes it: line 159 `orm.__tablename__` raises `AttributeError`
(automap classes carry no `__tablename__`) before the cache membership
test is even evaluated, so the live entry is never consulted and the
client receives a 500 error page instead of the snapshot. -/
theorem c4_cache_hit_crashes :
    Cache.get sampleAppHit.cache "users" 0 = some "SNAPSHOT" ∧
    (DBAPI.get sampleAppHit 0 "users" [] false).response.status = 500 ∧
    (DBAPI.get sampleAppHit 0 "users" [] false).response.body ≠ "SNAPSHOT" := by
  refine ⟨rfl, ?_, ?_⟩ <;> decide

/-- Claim C5: the claim says a cache-missing GET returns every row when
the constraint set is empty and exactly the conjunctive equality
matches otherwise.  Evaluating the code refutes both halves at once:
every GET on a resolved table raises `AttributeError` at line 159
(automap classes have no `__tablename__`), so with a cold cache and no
constraints the request answers 500 without returning a single row, a
constrained request answers 500 as well, and no session is ever
opened — line 163's query, the full scan and the `filter_by` alike,
never runs. -/
theorem c5_constraint_filtering :
    (DBAPI.get sampleApp 0 "users" [] false).response.status = 500 ∧
    (DBAPI.get sampleApp 0 "users" ["name=a"] false).response.status = 500 ∧
    (DBAPI.get sampleApp 0 "users" [] false).sessionsOpened = 0 := by
  refine ⟨?_, ?_, ?_⟩ <;> decide

/-- Claim C6: the cache-layer half of the claim holds — a snapshot
stored with TTL `ttl` is returned by any lookup strictly before the TTL
elapses and is a Miss from then on — but the read-path half fails:
line 166's `cache.set(..., ex=60*60)` is unreachable (line 159 raises
`AttributeError` on every resolved table), so no GET ever stores a
snapshot and no TTL is ever used by the read path; every GET leaves the
cache exactly as it found it. -/
theorem c6_cache_ttl :
    (∀ (c : Cache) (k v : String) (now ttl t : Nat),
        Cache.get (Cache.set c k v now ttl) k t = some v ↔ t < now + ttl) ∧
    (∀ (app : App) (now : Nat) (table : String) (kwargs : List String)
        (qf : Bool),
        (DBAPI.get app now table kwargs qf).cache = app.cache) := by
  constructor
  · exact cache_get_set
  · intro app now table kwargs qf
    exact (get_always_500 app now table kwargs qf).2.2.1

/-- Claim C7: two rows of the same table are `==` exactly when their
stringified primary-key value tuples (in the declared column order,
which is what `pval` computes) are equal, independent of non-key
fields; and `!=` holds exactly when they are not equal. -/
theorem c7_identity_equality (t : Table) (r1 r2 : Row) (p1 p2 : List String)
    (h1 : pval t r1 = some p1) (h2 : pval t r2 = some p2) :
    (ormEq t r1 r2 = some true ↔ p1 = p2) ∧
    (ormNe t r1 r2 = some true ↔ p1 ≠ p2) := by
  constructor
  · simp [ormEq, h1, h2]
  · simp [ormNe, h1, h2]

/-- Witness for C7: `row1` and `row1b` share primary key `("1")` but
differ in the non-key field `name`, and compare equal; `row1` and
`row2` have different primary keys and compare not-equal. -/
theorem c7_identity_equality_witness :
    ormEq usersTable row1 row1b = some true ∧
    ormNe usersTable row1 row2 = some true :=
  ⟨(c7_identity_equality usersTable row1 row1b ["1"] ["1"]
      (by decide) (by decide)).1.mpr rfl,
   (c7_identity_equality usersTable row1 row2 ["1"] ["2"]
      (by decide) (by decide)).2.mpr (by decide)⟩

/-- Claim C8: constructing a row from a row's own field-map yields a row
with the same field-map: `to_dict` strips only underscore-prefixed
fields, and the constructor adds only the underscore-prefixed
`_sa_instance_state`, so the round trip is the identity on field-maps. -/
theorem c8_round_trip (r : Row) :
    to_dict (fromFieldMap (to_dict r)) = to_dict r := by
  have hpriv : startsWithUnderscore "_sa_instance_state" = true := by decide
  simp only [to_dict, fromFieldMap, List.filter_cons, hpriv, Bool.not_true,
    Bool.false_eq_true, if_false]
  exact filter_private_idem r.fields

/-- Claim C9: the write path never touches the cache: every branch of
`DBAPI.post` (success, commit failure, constructor failure) leaves every
cache entry exactly as it was. -/
theorem c9_post_preserves_cache (app : App) (table : String)
    (kwargs : List String) (commitFails : Bool) :
    (DBAPI.post app table kwargs commitFails).cache = app.cache := by
  cases kwargs <;> cases commitFails <;> rfl

/-- Claim C10: the claim speaks of a GET that misses the cache and
completes without error, and asserts the stored snapshot equals the
response payload byte for byte.  No such request exists: every GET
answers 500 (line 159 raises `AttributeError`, via the missing
`__tablename__` for resolved tables and via `None.__tablename__` for
unknown ones) and the cache is never written, so the
serialize-store-write sequence of lines 164-167 the claim describes is
dead code. -/
theorem c10_no_successful_get (app : App) (now : Nat) (table : String)
    (kwargs : List String) (qf : Bool) :
    (DBAPI.get app now table kwargs qf).response.status = 500 ∧
    (DBAPI.get app now table kwargs qf).cache = app.cache := by
  exact ⟨(get_always_500 app now table kwargs qf).1,
    (get_always_500 app now table kwargs qf).2.2.1⟩

end DataServer
